import Mathlib

/-!
# Verification of the career-atlas pipeline

Shallow embedding of `agent.py`, `app.py` and `resume_generator.py`.

The LLM, the HTTP layer and PDF text extraction are external effects; they
are modelled as oracle functions passed to the embedded code.  Every node of
the two LangGraph graphs returns the update record it merges into the shared
state, together with the number of LLM chain invocations it performs
directly.  The compiled graphs are executed by a generic superstep executor
over the node and edge lists written down exactly as they are registered by
`graph_builder` and `create_resume_writing_team` in `agent.py`.
-/

set_option maxRecDepth 4000

/-- Pydantic model `SkillAnalysis` from `agent.py`. -/
structure SkillAnalysis where
  technical_skills : List String
  soft_skills : List String

/-- Pydantic model `ProfileFeedback` from `agent.py`. -/
structure ProfileFeedback where
  resume_strengths : List String
  resume_gaps : List String
  linkedin_suggestions : List String

/-- Pydantic model `JobExperience` from `agent.py`. -/
structure JobExperience where
  title : String
  company : String
  dates : String
  description : List String

/-- Pydantic model `TailoredResumeContent` from `agent.py`. -/
structure TailoredResumeContent where
  full_name : String
  email : String
  phone : String
  summary : String
  experiences : List JobExperience
  education : String
  skills : List String

/-- Pydantic model `CareerActionPlan` from `agent.py`. -/
structure CareerActionPlan where
  chosen_career : String
  career_overview : String
  skill_analysis : SkillAnalysis
  profile_feedback : ProfileFeedback
  learning_roadmap : String
  portfolio_plan : String

/-- The `TeamState` TypedDict of the main graph.  Channels that the initial
state leaves unset are `Option`-typed exactly as in the `Optional` annotations
of the source. -/
structure TeamState where
  student_profile : String
  role_choice : String
  chosen_career : Option String
  market_analysis : Option SkillAnalysis
  profile_analysis : Option ProfileFeedback
  tailored_resume : Option TailoredResumeContent
  final_plan : Option CareerActionPlan

/-- Pydantic model `ParsedExperience`, defined inside
`create_resume_writing_team` in `agent.py`. -/
structure ParsedExperience where
  title : String
  company : String
  description : String

/-- Pydantic model `ParsedProfile`, defined inside
`create_resume_writing_team` in `agent.py`. -/
structure ParsedProfile where
  full_name : String
  email : String
  phone : String
  education : String
  raw_experiences : List ParsedExperience
  raw_skills : List String

/-- The `ResumeTeamState` TypedDict of the sub-graph.  The three input
channels are copied from the main state by `resume_team_node`; the remaining
channels are absent until a node writes them, hence `Option`.  Reading an
absent channel in Python raises (`KeyError`), modelled by node failure. -/
structure ResumeTeamState where
  student_profile : String
  chosen_career : Option String
  market_analysis : Option SkillAnalysis
  parsed_profile : Option ParsedProfile
  rewritten_summary : Option String
  rewritten_experiences : Option (List JobExperience)
  optimized_skills : Option (List String)
  final_resume_content : Option TailoredResumeContent

/-- Partial state update returned by a main-graph node: `some v` means the
node's returned dict contains that key with value `v`. -/
structure TeamUpdate where
  chosen_career : Option String := none
  market_analysis : Option SkillAnalysis := none
  profile_analysis : Option ProfileFeedback := none
  tailored_resume : Option TailoredResumeContent := none
  final_plan : Option CareerActionPlan := none

/-- Partial state update returned by a sub-graph node. -/
structure ResumeUpdate where
  parsed_profile : Option ParsedProfile := none
  rewritten_summary : Option String := none
  rewritten_experiences : Option (List JobExperience) := none
  optimized_skills : Option (List String) := none
  final_resume_content : Option TailoredResumeContent := none

/-- LangGraph channel merge: a key present in the returned dict overwrites
the channel, an absent key leaves it unchanged. -/
def mergeField {α : Type} : Option α → Option α → Option α
  | some v, _ => some v
  | none, old => old

/-- Merge a node's returned dict into the main-graph shared state. -/
def applyTeamUpdate (s : TeamState) (u : TeamUpdate) : TeamState :=
  { s with
    chosen_career := mergeField u.chosen_career s.chosen_career
    market_analysis := mergeField u.market_analysis s.market_analysis
    profile_analysis := mergeField u.profile_analysis s.profile_analysis
    tailored_resume := mergeField u.tailored_resume s.tailored_resume
    final_plan := mergeField u.final_plan s.final_plan }

/-- Merge a node's returned dict into the sub-graph shared state. -/
def applyResumeUpdate (s : ResumeTeamState) (u : ResumeUpdate) : ResumeTeamState :=
  { s with
    parsed_profile := mergeField u.parsed_profile s.parsed_profile
    rewritten_summary := mergeField u.rewritten_summary s.rewritten_summary
    rewritten_experiences := mergeField u.rewritten_experiences s.rewritten_experiences
    optimized_skills := mergeField u.optimized_skills s.optimized_skills
    final_resume_content := mergeField u.final_resume_content s.final_resume_content }

/-- Oracle for the hosted language model.  `chat` answers a rendered prompt
with raw text (`AIMessage.content`); the other fields answer a rendered
prompt with a value of the schema requested through
`llm.with_structured_output`. -/
structure LLM where
  chat : String → String
  structuredSkillAnalysis : String → SkillAnalysis
  structuredProfileFeedback : String → String → ProfileFeedback
  structuredCareerActionPlan : String → CareerActionPlan
  structuredParsedProfile : String → ParsedProfile

/-- Python `str(x)` for `x : Optional[str]`, as used when an optional state
field is substituted into a prompt template. -/
def pyOptStr : Option String → String
  | some s => s
  | none => "None"

/-- Python whitespace as stripped by `str.strip()`. -/
def pyIsSpace (c : Char) : Bool :=
  c == ' ' || c == '\t' || c == '\n' || c == '\r' || c == '\x0b' || c == '\x0c'

/-- Python `str.strip()`: drop whitespace from both ends. -/
def pyStrip (s : String) : String :=
  String.mk (((s.data.dropWhile pyIsSpace).reverse.dropWhile pyIsSpace).reverse)

/-- Python `str.lstrip(cs)`: drop leading characters belonging to `cs`. -/
def pyLstrip (cs : List Char) (s : String) : String :=
  String.mk (s.data.dropWhile (fun c => cs.contains c))

/-- Splitting a character list at every occurrence of `sep`. -/
def pySplitChars (sep : Char) : List Char → List Char → List (List Char)
  | [], acc => [acc.reverse]
  | c :: rest, acc =>
    if c == sep then acc.reverse :: pySplitChars sep rest []
    else pySplitChars sep rest (c :: acc)

/-- Python `str.split(sep)` for a one-character separator. -/
def pySplit (sep : Char) (s : String) : List String :=
  (pySplitChars sep s.data []).map String.mk

/-- Python `str` of a list of strings, as produced when a list is substituted
into a prompt template. -/
def pyListRepr (l : List String) : String :=
  "[" ++ String.intercalate (", ") (l.map (fun s => "\x27" ++ s ++ "\x27")) ++ "]"

/-- Python `str` of `SkillAnalysis.dict()`. -/
def skillAnalysisRepr (a : SkillAnalysis) : String :=
  "\x7b\x27technical_skills\x27: " ++ pyListRepr a.technical_skills ++
    ", \x27soft_skills\x27: " ++ pyListRepr a.soft_skills ++ "\x7d"

/-- Python `str` of `ProfileFeedback.dict()`. -/
def profileFeedbackRepr (f : ProfileFeedback) : String :=
  "\x7b\x27resume_strengths\x27: " ++ pyListRepr f.resume_strengths ++
    ", \x27resume_gaps\x27: " ++ pyListRepr f.resume_gaps ++
    ", \x27linkedin_suggestions\x27: " ++ pyListRepr f.linkedin_suggestions ++ "\x7d"

/-- Rendered prompt of `role_suggester_agent` for `role_choice == "resume_based"`. -/
def role_prompt_resume_based (profile : String) : String :=
  "Analyze the user\x27s profile and suggest the single most suitable job role. Output only the job title. Profile: " ++ profile

/-- Rendered prompt of `role_suggester_agent` otherwise (the template has no
placeholder, so the extra `profile` variable is ignored). -/
def role_prompt_market_demand : String :=
  "Based on current tech trends, suggest a single, high-demand job role for a college student. Output only the job title."

/-- Rendered prompt of `job_market_analyst_agent`. -/
def market_prompt (career : String) : String :=
  "Based on the career of \x27" ++ career ++ "\x27, identify the top 5 technical skills and top 3 soft skills required."

/-- System message of `profile_reviewer_agent`. -/
def reviewer_system_message : String :=
  "Analyze the user\x27s professional profile. 1. Compare it to required skills, identifying strengths/gaps. 2. Provide 3-5 specific, actionable suggestions to improve their LinkedIn profile."

/-- Rendered human message of `profile_reviewer_agent`. -/
def reviewer_human_message (profile skill_analysis : String) : String :=
  "User Profile:\n" ++ profile ++ "\n\nRequired Skills:\n" ++ skill_analysis

/-- Rendered prompt of `lead_agent_node`. -/
def lead_prompt (career skills profile_feedback : String) : String :=
  "You are the lead career strategist. Synthesize all information into a comprehensive Career Action Plan. Create a detailed 8-week learning roadmap and suggest 3 portfolio projects.\n\nChosen Career: " ++ career ++ "\nRequired Skills: " ++ skills ++ "\nProfile Feedback: " ++ profile_feedback

/-- Rendered (constant) prompt of `parser_node`: the template has no
placeholder, so the `input` variable passed at invoke time is ignored. -/
def parser_prompt : String :=
  "Parse the user\x27s profile into a structured format. Extract their name, contact info, education, and list of raw experiences and skills."

/-- Rendered prompt of `summary_node`. -/
def summary_prompt (chosen_career student_profile : String) : String :=
  "You are a professional resume writer. Write a compelling 3-4 sentence professional summary for a " ++ chosen_career ++ ", based on this user\x27s profile: " ++ student_profile

/-- Rendered prompt of the per-experience call in `experience_node`
(`chosen_career` is passed at invoke time but the template has no such
placeholder). -/
def experience_prompt (skills title company description : String) : String :=
  "You are an expert resume writer. Rewrite this single job experience to be achievement-oriented, using keywords from the skill analysis. Use the STAR method and quantify results. Output only the rewritten description as a list of 3-4 bullet points.\n\nRequired Skills: " ++ skills ++ "\nOriginal Experience:\nTitle: " ++ title ++ "\nCompany: " ++ company ++ "\nDescription: " ++ description

/-- Rendered prompt of `skills_node`. -/
def skills_prompt (chosen_career market_skills raw_skills : String) : String :=
  "You are a skills analyst. From the following list of raw skills, select the top 10 most relevant skills for a " ++ chosen_career ++ ", informed by the market analysis.\n\nRequired Market Skills: " ++ market_skills ++ "\nRaw Skills List: " ++ raw_skills

/-- The list-comprehension of `experience_node` (line 142 of `agent.py`):
keep the lines whose `strip()` is nonempty, and for each such line return
`line.strip().lstrip(\x27-* \x27)`. -/
def pyDescLines (s : String) : List String :=
  ((pySplit '\n' s).filter (fun line => pyStrip line != "")).map
    (fun line => pyLstrip ('-' :: '*' :: ' ' :: []) (pyStrip line))

/-- `role_suggester_agent`: one plain LLM call; the prompt text depends on
`role_choice`; the stripped answer is written to `chosen_career`. -/
def role_suggester_agent (o : LLM) (s : TeamState) : Option (TeamUpdate × Nat) :=
  let rendered :=
    if s.role_choice = "resume_based" then role_prompt_resume_based s.student_profile
    else role_prompt_market_demand
  let suggested_role := pyStrip (o.chat rendered)
  some ({ chosen_career := some suggested_role }, 1)

/-- `job_market_analyst_agent`: one schema-constrained call decoding a
`SkillAnalysis`. -/
def job_market_analyst_agent (o : LLM) (s : TeamState) : Option (TeamUpdate × Nat) :=
  let analysis := o.structuredSkillAnalysis (market_prompt (pyOptStr s.chosen_career))
  some ({ market_analysis := some analysis }, 1)

/-- `profile_reviewer_agent`: one schema-constrained call decoding a
`ProfileFeedback`; reading `state["market_analysis"].dict()` fails when the
channel is unset. -/
def profile_reviewer_agent (o : LLM) (s : TeamState) : Option (TeamUpdate × Nat) :=
  match s.market_analysis with
  | none => none
  | some ma =>
    let feedback := o.structuredProfileFeedback reviewer_system_message
      (reviewer_human_message s.student_profile (skillAnalysisRepr ma))
    some ({ profile_analysis := some feedback }, 1)

/-- `lead_agent_node`: one schema-constrained call decoding a
`CareerActionPlan`; fails when `market_analysis` or `profile_analysis` is
unset. -/
def lead_agent_node (o : LLM) (s : TeamState) : Option (TeamUpdate × Nat) :=
  match s.market_analysis, s.profile_analysis with
  | some ma, some pf =>
    let final_plan := o.structuredCareerActionPlan
      (lead_prompt (pyOptStr s.chosen_career) (skillAnalysisRepr ma) (profileFeedbackRepr pf))
    some ({ final_plan := some final_plan }, 1)
  | _, _ => none

/-- `parser_node` of the sub-graph: one schema-constrained call decoding a
`ParsedProfile` from a constant prompt. -/
def parser_node (o : LLM) (_s : ResumeTeamState) : Option (ResumeUpdate × Nat) :=
  let parsed_profile := o.structuredParsedProfile parser_prompt
  some ({ parsed_profile := some parsed_profile }, 1)

/-- `summary_node` of the sub-graph: one plain LLM call. -/
def summary_node (o : LLM) (s : ResumeTeamState) : Option (ResumeUpdate × Nat) :=
  let result := o.chat (summary_prompt (pyOptStr s.chosen_career) s.student_profile)
  some ({ rewritten_summary := some result }, 1)

/-- The loop body of `experience_node`: one plain LLM call per parsed
experience, in list order, each answer split into description lines. -/
def rewriteExperiences (o : LLM) (skills : String) : List ParsedExperience → List JobExperience × Nat
  | [] => ([], 0)
  | e :: rest =>
    let rewritten_desc_str := o.chat (experience_prompt skills e.title e.company e.description)
    let job : JobExperience :=
      { title := e.title, company := e.company, dates := "Present",
        description := pyDescLines rewritten_desc_str }
    let tail := rewriteExperiences o skills rest
    (job :: tail.1, 1 + tail.2)

/-- `experience_node` of the sub-graph: fails when `parsed_profile` or
`market_analysis` is unset; otherwise rewrites every raw experience. -/
def experience_node (o : LLM) (s : ResumeTeamState) : Option (ResumeUpdate × Nat) :=
  match s.parsed_profile, s.market_analysis with
  | some pp, some ma =>
    let rewritten := rewriteExperiences o (pyListRepr ma.technical_skills) pp.raw_experiences
    some ({ rewritten_experiences := some rewritten.1 }, rewritten.2)
  | _, _ => none

/-- `skills_node` of the sub-graph: one plain LLM call, answer split on
commas and stripped. -/
def skills_node (o : LLM) (s : ResumeTeamState) : Option (ResumeUpdate × Nat) :=
  match s.parsed_profile, s.market_analysis with
  | some pp, some ma =>
    let content := o.chat (skills_prompt (pyOptStr s.chosen_career)
      (pyListRepr ma.technical_skills) (pyListRepr pp.raw_skills))
    let optimized_list := (pySplit ',' content).map (fun skill => pyStrip skill)
    some ({ optimized_skills := some optimized_list }, 1)
  | _, _ => none

/-- `compile_resume_node` of the sub-graph: no LLM call; assembles the
`TailoredResumeContent` from the four upstream channels, failing when any is
unset. -/
def compile_resume_node (_o : LLM) (s : ResumeTeamState) : Option (ResumeUpdate × Nat) :=
  match s.parsed_profile, s.rewritten_summary, s.rewritten_experiences, s.optimized_skills with
  | some pp, some summ, some exps, some sk =>
    let final_resume : TailoredResumeContent :=
      { full_name := pp.full_name, email := pp.email, phone := pp.phone,
        summary := summ, experiences := exps, education := pp.education, skills := sk }
    some ({ final_resume_content := some final_resume }, 0)
  | _, _, _, _ => none

/-- A compiled LangGraph graph: registered nodes, registered edges, and the
channel-merge function of the state type. -/
structure GraphDef (σ υ : Type) where
  nodes : List (String × (σ → Option (υ × Nat)))
  edges : List (String × String)
  merge : σ → υ → σ

/-- Find a registered node by name. -/
def GraphDef.lookup {σ υ : Type} (g : GraphDef σ υ) (n : String) :
    Option (σ → Option (υ × Nat)) :=
  (g.nodes.find? (fun p => p.1 == n)).map (fun p => p.2)

/-- Successors of a node along the registered edges. -/
def GraphDef.successors {σ υ : Type} (g : GraphDef σ υ) (n : String) : List String :=
  (g.edges.filter (fun e => e.1 == n)).map (fun e => e.2)

/-- Run every node of one superstep frontier on the same pre-step state,
collecting the returned updates in frontier order. -/
def GraphDef.runFrontier {σ υ : Type} (g : GraphDef σ υ) (s : σ) :
    List String → Option (List υ)
  | [] => some []
  | n :: rest =>
    match g.lookup n with
    | none => none
    | some f =>
      match f s with
      | none => none
      | some (u, _) =>
        match g.runFrontier s rest with
        | none => none
        | some us => some (u :: us)

/-- Pregel-style superstep execution: all frontier nodes read the same state,
their updates are merged, and the deduplicated successors (minus `END`) form
the next frontier.  `fuel` bounds the number of supersteps. -/
def GraphDef.run {σ υ : Type} (g : GraphDef σ υ) : Nat → List String → σ → Option σ
  | _, [], s => some s
  | 0, _ :: _, _ => none
  | fuel + 1, frontier, s =>
    match g.runFrontier s frontier with
    | none => none
    | some us =>
      g.run fuel
        (((frontier.flatMap g.successors).filter (fun n => n != "END")).eraseDups)
        (us.foldl g.merge s)

/-- The sub-graph exactly as registered by `create_resume_writing_team`. -/
def create_resume_writing_team (o : LLM) : GraphDef ResumeTeamState ResumeUpdate :=
  { nodes := [
      ("parse_profile", parser_node o),
      ("write_summary", summary_node o),
      ("rewrite_experience", experience_node o),
      ("optimize_skills", skills_node o),
      ("compile_resume", compile_resume_node o)],
    edges := [
      ("parse_profile", "write_summary"),
      ("parse_profile", "rewrite_experience"),
      ("parse_profile", "optimize_skills"),
      ("write_summary", "compile_resume"),
      ("rewrite_experience", "compile_resume"),
      ("optimize_skills", "compile_resume"),
      ("compile_resume", "END")],
    merge := applyResumeUpdate }

/-- Invoking the compiled sub-graph from its entry point `parse_profile`.
Four supersteps of fuel cover its three frontiers. -/
def resume_team_invoke (o : LLM) (s : ResumeTeamState) : Option ResumeTeamState :=
  (create_resume_writing_team o).run 4 ["parse_profile"] s

/-- `resume_team_node` of the main graph: builds the sub-graph input from the
three shared channels, invokes the compiled sub-graph, and copies
`final_resume_content` back as `tailored_resume`.  It performs no direct LLM
call itself. -/
def resume_team_node (o : LLM) (s : TeamState) : Option (TeamUpdate × Nat) :=
  let sub_graph_input : ResumeTeamState :=
    { student_profile := s.student_profile, chosen_career := s.chosen_career,
      market_analysis := s.market_analysis, parsed_profile := none,
      rewritten_summary := none, rewritten_experiences := none,
      optimized_skills := none, final_resume_content := none }
  match resume_team_invoke o sub_graph_input with
  | none => none
  | some final_resume_state =>
    match final_resume_state.final_resume_content with
    | none => none
    | some r => some ({ tailored_resume := some r }, 0)

/-- The two `role_choice` keywords tested by `route_initial_choice` and
`run_agent`. -/
def roleKeywords : List String := ["resume_based", "market_demand"]

/-- `route_initial_choice`: conditional entry point of the main graph. -/
def route_initial_choice (s : TeamState) : String :=
  if s.role_choice ∈ roleKeywords then ("suggest_role") else ("analyze_market")

/-- The main graph exactly as registered on `graph_builder`. -/
def graph_builder (o : LLM) : GraphDef TeamState TeamUpdate :=
  { nodes := [
      ("suggest_role", role_suggester_agent o),
      ("analyze_market", job_market_analyst_agent o),
      ("review_profile", profile_reviewer_agent o),
      ("resume_writing_team", resume_team_node o),
      ("create_final_plan", lead_agent_node o)],
    edges := [
      ("suggest_role", "analyze_market"),
      ("analyze_market", "review_profile"),
      ("review_profile", "resume_writing_team"),
      ("resume_writing_team", "create_final_plan"),
      ("create_final_plan", "END")],
    merge := applyTeamUpdate }

/-- Invoking the compiled main graph (`navigator_agent.invoke`) from the
conditional entry point.  Six supersteps of fuel cover its at most five
frontiers. -/
def navigator_invoke (o : LLM) (s : TeamState) : Option TeamState :=
  (graph_builder o).run 6 [route_initial_choice s] s

/-- The initial state built by `run_agent`. -/
def initial_state (student_profile role_choice : String) : TeamState :=
  { student_profile := student_profile, role_choice := role_choice,
    chosen_career := if role_choice ∈ roleKeywords then none else some role_choice,
    market_analysis := none, profile_analysis := none,
    tailored_resume := none, final_plan := none }

/-- `run_agent`: build the initial state and invoke the compiled graph. -/
def run_agent (o : LLM) (student_profile role_choice : String) : Option TeamState :=
  navigator_invoke o (initial_state student_profile role_choice)

/-- Python slicing `s[:n]`. -/
def pyTruncate (s : String) (n : Nat) : String :=
  String.mk (s.data.take n)

/-- `scrape_web_content` from `agent.py`.  `http` models `requests.get`
(`Except.error` carries the text of a raised `RequestException`);
`getText` models `BeautifulSoup(...).get_text(separator=\x27 \x27, strip=True)`.
The body catches `RequestException` and returns an error string instead. -/
def scrape_web_content (http : String → Except String String)
    (getText : String → String) (url : String) : String :=
  match http url with
  | Except.ok content => pyTruncate (getText content) 15000
  | Except.error e => "Error scraping " ++ url ++ ": " ++ e

/-- The document drawn by `create_resume_pdf` in `resume_generator.py`:
the data placed on the page, one field per drawing call.  `has_picture`
records whether the profile picture was actually drawn; `picture_warning`
records the warning printed when drawing it raised. -/
structure PdfDoc where
  has_picture : Bool
  picture_warning : Option String
  contact_info : List String
  sidebar_skills : List String
  header_name : String
  header_title : String
  summary_text : String
  jobs : List JobExperience
  education_text : String

/-- `add_profile_picture` from `resume_generator.py`: the picture is drawn
only when an image path is given and `os.path.exists` holds of it
(`pathExists`); any exception raised while drawing the image and its frame
(`drawImage` returning `Except.error`) is caught, a
`"Could not process profile picture: ..."` warning is printed, and
rendering continues without the picture.  Returns whether the picture was
drawn and the warning, if any. -/
def add_profile_picture (pathExists : String → Bool)
    (drawImage : String → Except String Unit) (image_path : Option String) :
    Bool × Option String :=
  match image_path with
  | some p =>
    if pathExists p then
      match drawImage p with
      | Except.ok _ => (true, none)
      | Except.error e => (false, some ("Could not process profile picture: " ++ e))
    else (false, none)
  | none => (false, none)

/-- `create_resume_pdf`: returns without output on falsy (`None`) content;
otherwise produces the rendered document at `output_path`
(`some (output_path, doc)` models `pdf.output(output_path)`).  A failure
while drawing the profile picture is caught inside `add_profile_picture`
and does not stop the rendering. -/
def create_resume_pdf (content : Option TailoredResumeContent)
    (pathExists : String → Bool) (drawImage : String → Except String Unit)
    (image_path : Option String) (output_path : String) (chosen_career : String) :
    Option (String × PdfDoc) :=
  match content with
  | none => none
  | some c =>
    let pic := add_profile_picture pathExists drawImage image_path
    some (output_path,
      { has_picture := pic.1,
        picture_warning := pic.2,
        contact_info := ["📧 " ++ c.email, "📞 " ++ c.phone],
        sidebar_skills := c.skills,
        header_name := c.full_name,
        header_title := chosen_career,
        summary_text := c.summary,
        jobs := c.experiences,
        education_text := c.education })

/-- An uploaded multipart file; only its filename is inspected by `process`. -/
structure UploadedFile where
  filename : String

/-- The form fields read by the `/process` handler (`request.files.get` and
`request.form.get` return `None` for a missing field; the string fields are
read with default `""`). -/
structure ProcessRequest where
  resume : Option UploadedFile
  profile_picture : Option UploadedFile
  linkedin_url : String
  career_choice : Option String
  custom_role : String

/-- The response of the `/process` handler. -/
inductive ProcessResult where
  | message (s : String)
  | agentError
  | page (plan : CareerActionPlan) (resume_pdf_filename : String)
      (pdf : Option (String × PdfDoc))

/-- Observable trace of one `/process` call: the response, how many times
`scrape_web_content` was invoked, how many times `run_agent` was invoked, and
the `student_profile` text passed to `run_agent` when it was. -/
structure ProcessTrace where
  result : ProcessResult
  scrape_calls : Nat
  agent_calls : Nat
  agent_profile : Option String

/-- `app.config[\x27UPLOAD_FOLDER\x27]`. -/
def UPLOAD_FOLDER : String := "/tmp/career_navigator"

/-- The tail of the `/process` handler after the input checks: run the
agent, read `final_plan` and `tailored_resume` out of the returned state
(attribute access on a `None` plan would raise, modelled by `agentError`),
generate the resume PDF and render the result page. -/
def agent_stage (o : LLM) (pathExists : String → Bool)
    (drawImage : String → Except String Unit) (student_profile_text : String)
    (final_role_choice : Option String) (image_filepath : Option String)
    (resume_pdf_filename resume_pdf_path : String) : ProcessResult :=
  match run_agent o student_profile_text (pyOptStr final_role_choice) with
  | none => ProcessResult.agentError
  | some agent_result =>
    match agent_result.final_plan with
    | none => ProcessResult.agentError
    | some final_plan =>
      ProcessResult.page final_plan resume_pdf_filename
        (create_resume_pdf agent_result.tailored_resume pathExists drawImage
          image_filepath resume_pdf_path final_plan.chosen_career)

/-- The `/process` handler from `app.py`.  `pdfExtract` models
`PdfReader(...)` plus the page-text join (`Except.error` carries the text of
a raised exception, caught by the handler); `uid` models `uuid.uuid4()`. -/
def process (o : LLM) (http : String → Except String String)
    (getText : String → String) (pathExists : String → Bool)
    (drawImage : String → Except String Unit) (pdfExtract : Except String String)
    (uid : String) (req : ProcessRequest) : ProcessTrace :=
  let linkedin_url := pyStrip req.linkedin_url
  let role_choice := req.career_choice
  let custom_role := pyStrip req.custom_role
  let final_role_choice : Option String :=
    if role_choice = some ("Other") ∧ custom_role ≠ "" then some custom_role else role_choice
  match req.resume with
  | none =>
    { result := ProcessResult.message ("A PDF resume is required to proceed."),
      scrape_calls := 0, agent_calls := 0, agent_profile := none }
  | some resume_file =>
    if resume_file.filename = "" then
      { result := ProcessResult.message ("A PDF resume is required to proceed."),
        scrape_calls := 0, agent_calls := 0, agent_profile := none }
    else
      let image_filepath : Option String :=
        match req.profile_picture with
        | some p => if p.filename = "" then none else some (UPLOAD_FOLDER ++ "/" ++ uid ++ "_pic.png")
        | none => none
      match pdfExtract with
      | Except.error e =>
        { result := ProcessResult.message ("Error reading PDF: " ++ e),
          scrape_calls := 0, agent_calls := 0, agent_profile := none }
      | Except.ok resume_text =>
        let scraped : String × Nat :=
          if linkedin_url ≠ "" then (scrape_web_content http getText linkedin_url, 1)
          else ("", 0)
        let student_profile_text :=
          "--- RESUME ---\n" ++ resume_text ++ "\n\n--- LINKEDIN PROFILE ---\n" ++ scraped.1
        let resume_pdf_filename := uid ++ "_generated_resume.pdf"
        let resume_pdf_path := UPLOAD_FOLDER ++ "/" ++ resume_pdf_filename
        { result := agent_stage o pathExists drawImage student_profile_text
            final_role_choice image_filepath resume_pdf_filename resume_pdf_path,
          scrape_calls := scraped.2, agent_calls := 1,
          agent_profile := some student_profile_text }

/-- Apply one node function as a plain sequential call, merging its returned
fields into the state.  Used by the sequential reference pipeline. -/
def stepNode (f : LLM → TeamState → Option (TeamUpdate × Nat)) (o : LLM)
    (s : TeamState) : Option TeamState :=
  (f o s).map (fun p => applyTeamUpdate s p.1)

/-- The four unconditional stages of the pipeline as plain sequential calls:
analyst, reviewer, resume team, lead agent. -/
def tail_pipeline (o : LLM) (s : TeamState) : Option TeamState :=
  (stepNode job_market_analyst_agent o s).bind (fun s1 =>
    (stepNode profile_reviewer_agent o s1).bind (fun s2 =>
      (stepNode resume_team_node o s2).bind (fun s3 =>
        stepNode lead_agent_node o s3)))

/-- Modelled from the spec: the graph "is simply an ordered/parallel call
sequence ... reimplementable as a handful of sequential function calls".
`role_suggester_agent` runs first exactly when `role_choice` is
`"resume_based"` or `"market_demand"`; then the analyst, reviewer, resume
team and lead agent run in order, each merging its returned fields. -/
def seq_run_agent (o : LLM) (student_profile role_choice : String) : Option TeamState :=
  let s0 := initial_state student_profile role_choice
  if role_choice ∈ roleKeywords then
    (stepNode role_suggester_agent o s0).bind (tail_pipeline o)
  else
    tail_pipeline o s0

/-- A concrete oracle with constant answers, used for witnesses. -/
def trivLLM : LLM :=
  { chat := fun _ => "ok",
    structuredSkillAnalysis := fun _ => { technical_skills := ["python"], soft_skills := ["teamwork"] },
    structuredProfileFeedback := fun _ _ =>
      { resume_strengths := ["clear"], resume_gaps := ["metrics"], linkedin_suggestions := ["headline"] },
    structuredCareerActionPlan := fun _ =>
      { chosen_career := "Data Analyst", career_overview := "overview",
        skill_analysis := { technical_skills := ["sql"], soft_skills := ["communication"] },
        profile_feedback := { resume_strengths := [], resume_gaps := [], linkedin_suggestions := [] },
        learning_roadmap := "roadmap", portfolio_plan := "portfolio" },
    structuredParsedProfile := fun _ =>
      { full_name := "Ada", email := "ada@mail", phone := "123", education := "BSc",
        raw_experiences := [{ title := "Dev", company := "Acme", description := "built things" },
          { title := "Intern", company := "Beta", description := "helped" }],
        raw_skills := ["python", "sql"] } }

/-- An oracle whose plain-chat answer is the single character `-`: the line
is nonblank, so `experience_node` keeps it, and stripping the leading `-`
leaves the empty string. -/
def dashLLM : LLM :=
  { trivLLM with chat := fun _ => "-" }

/-- A concrete sub-graph input state used in counterexamples and witnesses. -/
def sampleSubInput : ResumeTeamState :=
  { student_profile := "profile", chosen_career := some ("Data Analyst"),
    market_analysis := some { technical_skills := ["python"], soft_skills := ["teamwork"] },
    parsed_profile := none, rewritten_summary := none,
    rewritten_experiences := none, optimized_skills := none,
    final_resume_content := none }

/-- A concrete parsed profile with two raw experiences. -/
def sampleParsedProfile : ParsedProfile :=
  { full_name := "Ada", email := "ada@mail", phone := "123", education := "BSc",
    raw_experiences := [{ title := "Dev", company := "Acme", description := "built things" },
      { title := "Intern", company := "Beta", description := "helped" }],
    raw_skills := ["python", "sql"] }

/-- A concrete `/process` form submission with a valid resume upload. -/
def sampleRequest : ProcessRequest :=
  { resume := some ⟨"resume.pdf"⟩, profile_picture := none,
    linkedin_url := "", career_choice := some ("resume_based"), custom_role := "" }

/-- A concrete tailored resume content. -/
def sampleTailored : TailoredResumeContent :=
  { full_name := "Ada", email := "ada@mail", phone := "123", summary := "s",
    experiences := [], education := "BSc", skills := ["python"] }

/-- A concrete sub-graph state in which every upstream channel is already
set, as `compile_resume_node` sees it. -/
def sampleReadySubState : ResumeTeamState :=
  { student_profile := "profile", chosen_career := some ("Data Analyst"),
    market_analysis := some { technical_skills := ["python"], soft_skills := ["teamwork"] },
    parsed_profile := some sampleParsedProfile,
    rewritten_summary := some ("summary"),
    rewritten_experiences := some [⟨"Dev", "Acme", "Present", ["did"]⟩],
    optimized_skills := some ["python"],
    final_resume_content := none }

/-- The per-experience loop performs exactly one LLM call per parsed
experience. -/
theorem rewriteExperiences_count (o : LLM) (skills : String) (l : List ParsedExperience) :
    (rewriteExperiences o skills l).2 = l.length := by
  induction l with
  | nil => rfl
  | cons e rest ih => simp [rewriteExperiences, ih]; omega

/-- The per-experience loop maps each parsed experience to a job entry that
keeps its title and company, stamps the dates `"Present"`, and derives the
description from the LLM answer line by line. -/
theorem rewriteExperiences_jobs (o : LLM) (skills : String) (l : List ParsedExperience) :
    (rewriteExperiences o skills l).1 =
      l.map (fun e => ⟨e.title, e.company, "Present",
        pyDescLines (o.chat (experience_prompt skills e.title e.company e.description))⟩) := by
  induction l with
  | nil => rfl
  | cons e rest ih => simp [rewriteExperiences, ih]

/-- `run_agent` always returns a final state whose `final_plan` and
`tailored_resume` channels are set, whatever the oracle answers. -/
theorem run_agent_total (o : LLM) (p rc : String) :
    ∃ st plan resume, run_agent o p rc = some st ∧ st.final_plan = some plan ∧
      st.tailored_resume = some resume := by
  by_cases h : rc ∈ roleKeywords
  · have hroute : route_initial_choice (initial_state p rc) = "suggest_role" := by
      simp [route_initial_choice, initial_state, h]
    unfold run_agent navigator_invoke
    rw [hroute]
    exact ⟨_, _, _, rfl, rfl, rfl⟩
  · have hroute : route_initial_choice (initial_state p rc) = "analyze_market" := by
      simp [route_initial_choice, initial_state, h]
    unfold run_agent navigator_invoke
    rw [hroute]
    exact ⟨_, _, _, rfl, rfl, rfl⟩

/-- The agent stage of `/process` always renders a result page carrying a
plan and a generated PDF document written at the given path. -/
theorem agent_stage_page (o : LLM) (pe : String → Bool)
    (di : String → Except String Unit) (profile : String) (role : Option String)
    (ip : Option String) (fname path : String) :
    ∃ plan doc, agent_stage o pe di profile role ip fname path =
      ProcessResult.page plan fname (some (path, doc)) := by
  by_cases h : pyOptStr role ∈ roleKeywords
  · have hroute : route_initial_choice (initial_state profile (pyOptStr role)) = "suggest_role" := by
      simp [route_initial_choice, initial_state, h]
    unfold agent_stage run_agent navigator_invoke
    rw [hroute]
    exact ⟨_, _, rfl⟩
  · have hroute : route_initial_choice (initial_state profile (pyOptStr role)) = "analyze_market" := by
      simp [route_initial_choice, initial_state, h]
    unfold agent_stage run_agent navigator_invoke
    rw [hroute]
    exact ⟨_, _, rfl⟩

/-- Python slicing `s[:n]` yields at most `n` characters. -/
theorem pyTruncate_length (s : String) (n : Nat) : (pyTruncate s n).length ≤ n := by
  show (s.data.take n).length ≤ n
  simp

/-- C1: for every initial state built by `run_agent`, executing the compiled
main graph equals the sequential composition of the node functions, with
`role_suggester_agent` running first exactly when `role_choice` is
`"resume_based"` or `"market_demand"` (otherwise `chosen_career` is seeded
with `role_choice` by the initial state), followed in order by the analyst,
reviewer, resume team and lead agent, each merging its returned fields. -/
theorem C1_main_graph_equals_sequential (o : LLM) (p rc : String) :
    run_agent o p rc = seq_run_agent o p rc := by
  by_cases h : rc ∈ roleKeywords
  · have hroute : route_initial_choice (initial_state p rc) = "suggest_role" := by
      simp [route_initial_choice, initial_state, h]
    unfold run_agent navigator_invoke seq_run_agent
    rw [hroute, if_pos h]
    rfl
  · have hroute : route_initial_choice (initial_state p rc) = "analyze_market" := by
      simp [route_initial_choice, initial_state, h]
    unfold run_agent navigator_invoke seq_run_agent
    rw [hroute, if_neg h]
    rfl

/-- C4 counterexample: the main graph and the resume-writing sub-graph
together register ten nodes, not at most seven. -/
theorem C4_counterexample :
    (graph_builder trivLLM).nodes.length + (create_resume_writing_team trivLLM).nodes.length = 10 ∧
      ¬((graph_builder trivLLM).nodes.length + (create_resume_writing_team trivLLM).nodes.length ≤ 7) := by
  constructor
  · rfl
  · decide

/-- C4 amended: the call sequence consists of exactly ten fixed nodes, the
five of the main graph and the five of the resume-writing sub-graph, with
the listed names. -/
theorem C4_node_counts (o : LLM) :
    (graph_builder o).nodes.map (fun p => p.1) =
        ["suggest_role", "analyze_market", "review_profile", "resume_writing_team", "create_final_plan"] ∧
      (create_resume_writing_team o).nodes.map (fun p => p.1) =
        ["parse_profile", "write_summary", "rewrite_experience", "optimize_skills", "compile_resume"] ∧
      (graph_builder o).nodes.length = 5 ∧
      (create_resume_writing_team o).nodes.length = 5 := by
  exact ⟨rfl, rfl, rfl, rfl⟩

/-- C10: `create_resume_pdf` with `None` content returns immediately and
writes nothing; with content provided it writes a document at
`output_path`. -/
theorem C10_pdf_requires_content (pex : String → Bool)
    (di : String → Except String Unit) (ip : Option String) (op cc : String)
    (t : TailoredResumeContent) :
    create_resume_pdf none pex di ip op cc = none ∧
      ∃ doc, create_resume_pdf (some t) pex di ip op cc = some (op, doc) := by
  exact ⟨rfl, _, rfl⟩

/-- C5: in the sub-graph, `parse_profile` feeds the three parallel branches
(`write_summary`, `rewrite_experience`, `optimize_skills`), which all edge
into `compile_resume`; executing the sub-graph on an input state yields a
`TailoredResumeContent` whose `full_name`, `email`, `phone` and `education`
come from the parsed profile, whose `summary` comes from the summary branch,
whose `experiences` come from the experience branch, and whose `skills` come
from the skills branch. -/
theorem C5_sub_graph_structure (o : LLM) (sp : String) (cc : Option String)
    (ma : SkillAnalysis) :
    (create_resume_writing_team o).successors ("parse_profile") =
        ["write_summary", "rewrite_experience", "optimize_skills"] ∧
      (create_resume_writing_team o).successors ("write_summary") = ["compile_resume"] ∧
      (create_resume_writing_team o).successors ("rewrite_experience") = ["compile_resume"] ∧
      (create_resume_writing_team o).successors ("optimize_skills") = ["compile_resume"] ∧
      resume_team_invoke o ⟨sp, cc, some ma, none, none, none, none, none⟩ =
        some { student_profile := sp, chosen_career := cc, market_analysis := some ma,
               parsed_profile := some (o.structuredParsedProfile parser_prompt),
               rewritten_summary := some (o.chat (summary_prompt (pyOptStr cc) sp)),
               rewritten_experiences := some (rewriteExperiences o
                 (pyListRepr ma.technical_skills)
                 (o.structuredParsedProfile parser_prompt).raw_experiences).1,
               optimized_skills := some ((pySplit ',' (o.chat (skills_prompt (pyOptStr cc)
                 (pyListRepr ma.technical_skills)
                 (pyListRepr (o.structuredParsedProfile parser_prompt).raw_skills)))).map
                   (fun skill => pyStrip skill)),
               final_resume_content := some
                 { full_name := (o.structuredParsedProfile parser_prompt).full_name,
                   email := (o.structuredParsedProfile parser_prompt).email,
                   phone := (o.structuredParsedProfile parser_prompt).phone,
                   summary := o.chat (summary_prompt (pyOptStr cc) sp),
                   experiences := (rewriteExperiences o
                     (pyListRepr ma.technical_skills)
                     (o.structuredParsedProfile parser_prompt).raw_experiences).1,
                   education := (o.structuredParsedProfile parser_prompt).education,
                   skills := (pySplit ',' (o.chat (skills_prompt (pyOptStr cc)
                     (pyListRepr ma.technical_skills)
                     (pyListRepr (o.structuredParsedProfile parser_prompt).raw_skills)))).map
                       (fun skill => pyStrip skill) } } := by
  exact ⟨rfl, rfl, rfl, rfl, rfl⟩

/-- C9: `scrape_web_content` never raises: on a successful request it
returns the extracted text truncated to at most 15000 characters, and on a
`RequestException` it returns a string beginning with `"Error scraping"`
that embeds the URL and the exception text. -/
theorem C9_scrape_never_raises (http : String → Except String String)
    (getText : String → String) (url : String) :
    (∀ c, http url = Except.ok c →
        scrape_web_content http getText url = pyTruncate (getText c) 15000 ∧
          (scrape_web_content http getText url).length ≤ 15000) ∧
      (∀ e, http url = Except.error e →
        ∃ rest, scrape_web_content http getText url = "Error scraping " ++ rest ∧
          rest = url ++ ": " ++ e) := by
  constructor
  · intro c hc
    have hval : scrape_web_content http getText url = pyTruncate (getText c) 15000 := by
      unfold scrape_web_content
      rw [hc]
    exact ⟨hval, hval ▸ pyTruncate_length (getText c) 15000⟩
  · intro e he
    refine ⟨url ++ ": " ++ e, ?_, rfl⟩
    unfold scrape_web_content
    rw [he]
    simp [String.append_assoc]

/-- C9 witness: both branches of the claim at concrete inputs. -/
theorem C9_scrape_never_raises_witness :
    scrape_web_content (fun _ => Except.ok ("hello")) (fun s => s) "http://a" =
        pyTruncate ("hello") 15000 ∧
      ∃ rest, scrape_web_content (fun _ => Except.error ("boom")) (fun s => s) "http://a" =
        "Error scraping " ++ rest ∧ rest = "http://a" ++ ": " ++ "boom" := by
  constructor
  · exact ((C9_scrape_never_raises (fun _ => Except.ok ("hello")) (fun s => s) "http://a").1
      "hello" rfl).1
  · exact (C9_scrape_never_raises (fun _ => Except.error ("boom")) (fun s => s) "http://a").2
      "boom" rfl

/-- C2 counterexample: `compile_resume_node` performs zero LLM invocations
while `rewrite_experience` performs one per parsed experience (two here), so
not every node performs exactly one prompt invocation. -/
theorem C2_counterexample :
    (compile_resume_node trivLLM sampleReadySubState).map (fun p => p.2) = some 0 ∧
      (compile_resume_node trivLLM sampleReadySubState).map (fun p => p.2) ≠ some 1 ∧
      (experience_node trivLLM sampleReadySubState).map (fun p => p.2) = some 2 := by
  refine ⟨rfl, ?_, rfl⟩
  decide

/-- C2 amended: each node performs a fixed pattern of direct LLM chain
invocations rather than exactly one: `suggest_role`, `analyze_market`,
`review_profile`, `create_final_plan`, `parse_profile`, `write_summary` and
`optimize_skills` each perform exactly one (only `analyze_market`,
`review_profile`, `create_final_plan` and `parse_profile` decode under a
fixed schema, the others return raw text); `rewrite_experience` performs one
per raw experience of the parsed profile; `compile_resume` performs none;
and `resume_writing_team` performs none directly, delegating to the
sub-graph. -/
theorem C2_fixed_call_counts (o : LLM) (sp rc : String) (cc scc : Option String)
    (ma : SkillAnalysis) (pf : ProfileFeedback) (pp : ParsedProfile)
    (mar : Option SkillAnalysis) (pa : Option ProfileFeedback)
    (tr : Option TailoredResumeContent) (fp : Option CareerActionPlan)
    (ppo : Option ParsedProfile) (sm : Option String)
    (ex : Option (List JobExperience)) (sk : Option (List String))
    (smv : String) (exv : List JobExperience) (skv : List String)
    (fc : Option TailoredResumeContent) :
    (role_suggester_agent o ⟨sp, rc, cc, mar, pa, tr, fp⟩).map (fun p => p.2) = some 1 ∧
      (job_market_analyst_agent o ⟨sp, rc, cc, mar, pa, tr, fp⟩).map (fun p => p.2) = some 1 ∧
      (profile_reviewer_agent o ⟨sp, rc, cc, some ma, pa, tr, fp⟩).map (fun p => p.2) = some 1 ∧
      (lead_agent_node o ⟨sp, rc, cc, some ma, some pf, tr, fp⟩).map (fun p => p.2) = some 1 ∧
      (resume_team_node o ⟨sp, rc, cc, some ma, pa, tr, fp⟩).map (fun p => p.2) = some 0 ∧
      (parser_node o ⟨sp, scc, mar, ppo, sm, ex, sk, fc⟩).map (fun p => p.2) = some 1 ∧
      (summary_node o ⟨sp, scc, mar, ppo, sm, ex, sk, fc⟩).map (fun p => p.2) = some 1 ∧
      (experience_node o ⟨sp, scc, some ma, some pp, sm, ex, sk, fc⟩).map (fun p => p.2) =
        some pp.raw_experiences.length ∧
      (skills_node o ⟨sp, scc, some ma, some pp, sm, ex, sk, fc⟩).map (fun p => p.2) = some 1 ∧
      (compile_resume_node o ⟨sp, scc, mar, some pp, some smv, some exv, some skv, fc⟩).map
        (fun p => p.2) = some 0 := by
  refine ⟨rfl, rfl, rfl, rfl, rfl, rfl, rfl, ?_, rfl, rfl⟩
  simp [experience_node, rewriteExperiences_count]

/-- Helper: the rewritten experience list has the same length as the parsed
raw experience list. -/
theorem rewriteExperiences_length (o : LLM) (skills : String) (l : List ParsedExperience) :
    (rewriteExperiences o skills l).1.length = l.length := by
  rw [rewriteExperiences_jobs]
  simp

/-- C3 counterexample: `scrape_web_content` catches a request failure and
continues with a substitute string, `/process` catches a PDF-read failure
and returns an error message, and the resume generator catches a failure
while drawing the profile picture and continues rendering without it, so
the program does perform catch-and-substitute error handling. -/
theorem C3_counterexample :
    scrape_web_content (fun _ => Except.error ("boom")) (fun s => s) "http://x" =
        "Error scraping http://x: boom" ∧
      (process trivLLM (fun _ => Except.error ("boom")) (fun s => s) (fun _ => true)
          (fun _ => Except.ok ()) (Except.error ("bad pdf")) "u" sampleRequest).result =
        ProcessResult.message ("Error reading PDF: bad pdf") ∧
      (create_resume_pdf (some sampleTailored) (fun _ => true)
          (fun _ => Except.error ("img")) (some ("pic.png")) ("out.pdf") ("Career")).map
        (fun r => (r.2.has_picture, r.2.picture_warning)) =
        some (false, some ("Could not process profile picture: img")) := by
  exact ⟨rfl, rfl, rfl⟩

/-- C3 amended: the agent pipeline itself performs no error recovery — a
node failure propagates through the graph executor unhandled — but three
operations do catch an exception: `scrape_web_content` substitutes an
`"Error scraping ..."` string for a `RequestException`; the PDF-reading
step of `/process` catches any exception and stops with an
`"Error reading PDF: ..."` message before the agent runs; and
`add_profile_picture` in the resume generator catches any exception raised
while drawing the profile picture, prints a warning, and continues
rendering the PDF without the picture. -/
theorem C3_exception_handling :
    (∀ (getText : String → String) (url e : String),
        scrape_web_content (fun _ => Except.error e) getText url =
          "Error scraping " ++ url ++ ": " ++ e) ∧
      (∀ (o : LLM) (http : String → Except String String) (getText : String → String)
        (pex : String → Bool) (di : String → Except String Unit)
        (uid e : String) (pic : Option UploadedFile) (lu : String)
        (ch : Option String) (cr fn : String), fn ≠ "" →
        ((process o http getText pex di (Except.error e) uid ⟨some ⟨fn⟩, pic, lu, ch, cr⟩).result,
            (process o http getText pex di (Except.error e) uid ⟨some ⟨fn⟩, pic, lu, ch, cr⟩).agent_calls) =
          (ProcessResult.message ("Error reading PDF: " ++ e), 0)) ∧
      (∀ (t : TailoredResumeContent) (p e op cc : String),
        ∃ doc, create_resume_pdf (some t) (fun _ => true) (fun _ => Except.error e)
            (some p) op cc = some (op, doc) ∧
          doc.has_picture = false ∧
          doc.picture_warning = some ("Could not process profile picture: " ++ e)) ∧
      (∀ (o : LLM) (sp rc : String) (cc : Option String),
        (graph_builder o).run 6 ["review_profile"] ⟨sp, rc, cc, none, none, none, none⟩ = none) := by
  refine ⟨?_, ?_, ?_, ?_⟩
  · intro getText url e
    rfl
  · intro o http getText pex di uid e pic lu ch cr fn h
    simp [process, h]
  · intro t p e op cc
    exact ⟨_, rfl, rfl, rfl⟩
  · intro o sp rc cc
    rfl

/-- C3 witness: the PDF-read branch of the amended claim at a concrete
input. -/
theorem C3_exception_handling_witness :
    ((process trivLLM (fun _ => Except.error ("x")) (fun s => s) (fun _ => true)
        (fun _ => Except.ok ()) (Except.error ("bad"))
        "u" ⟨some ⟨"resume.pdf"⟩, none, "", some ("resume_based"), ""⟩).result,
      (process trivLLM (fun _ => Except.error ("x")) (fun s => s) (fun _ => true)
        (fun _ => Except.ok ()) (Except.error ("bad"))
        "u" ⟨some ⟨"resume.pdf"⟩, none, "", some ("resume_based"), ""⟩).agent_calls) =
    (ProcessResult.message ("Error reading PDF: " ++ "bad"), 0) := by
  exact C3_exception_handling.2.1 trivLLM (fun _ => Except.error ("x")) (fun s => s)
    (fun _ => true) (fun _ => Except.ok ())
    "u" "bad" none ("") (some ("resume_based")) "" "resume.pdf" (by decide)

/-- C8 counterexample: with an LLM whose rewrite answer is the single line
`-`, the compiled resume's experience descriptions contain the empty string
(the line is nonblank, so the comprehension keeps it, and stripping the
leading dash leaves `""`). -/
theorem C8_counterexample :
    ((resume_team_invoke dashLLM sampleSubInput).bind (fun s => s.final_resume_content)).map
        (fun r => r.experiences.map (fun j => j.description)) = some [[""], [""]] ∧
      "" ∈ [""] := by
  refine ⟨?_, by simp⟩
  rfl

/-- C8 amended: the compiled experience list has exactly the length of the
parsed `raw_experiences`; each entry keeps the corresponding title and
company in order and has dates `"Present"`; each description list consists
of the nonblank lines of the LLM answer, stripped of surrounding whitespace
and of leading `-`, `*` and space characters — such an entry can be the
empty string when the line contains only those characters. -/
theorem C8_experience_structure (o : LLM) (sp : String) (cc : Option String)
    (ma : SkillAnalysis) :
    ((resume_team_invoke o ⟨sp, cc, some ma, none, none, none, none, none⟩).bind
        (fun s => s.final_resume_content)).map (fun r => r.experiences) =
      some ((o.structuredParsedProfile parser_prompt).raw_experiences.map
        (fun e => ⟨e.title, e.company, "Present",
          pyDescLines (o.chat (experience_prompt (pyListRepr ma.technical_skills)
            e.title e.company e.description))⟩)) ∧
      ((resume_team_invoke o ⟨sp, cc, some ma, none, none, none, none, none⟩).bind
        (fun s => s.final_resume_content)).map (fun r => r.experiences.length) =
      some (o.structuredParsedProfile parser_prompt).raw_experiences.length := by
  constructor
  · exact congrArg some (rewriteExperiences_jobs o (pyListRepr ma.technical_skills)
      (o.structuredParsedProfile parser_prompt).raw_experiences)
  · exact congrArg some (rewriteExperiences_length o (pyListRepr ma.technical_skills)
      (o.structuredParsedProfile parser_prompt).raw_experiences)

/-- C6: `/process` requires a resume — a missing upload or an empty filename
stops with `"A PDF resume is required to proceed."` before the agent runs —
while the LinkedIn URL is optional: when it is empty (after stripping), the
scraper is never invoked and the agent receives a profile whose LinkedIn
section is empty. -/
theorem C6_resume_required_linkedin_optional :
    (∀ (o : LLM) (http : String → Except String String) (getText : String → String)
        (pex : String → Bool) (di : String → Except String Unit)
        (pe : Except String String) (uid : String) (pic : Option UploadedFile)
        (lu : String) (ch : Option String) (cr : String),
        process o http getText pex di pe uid ⟨none, pic, lu, ch, cr⟩ =
          ⟨ProcessResult.message ("A PDF resume is required to proceed."), 0, 0, none⟩) ∧
      (∀ (o : LLM) (http : String → Except String String) (getText : String → String)
        (pex : String → Bool) (di : String → Except String Unit)
        (pe : Except String String) (uid : String) (pic : Option UploadedFile)
        (lu : String) (ch : Option String) (cr : String),
        process o http getText pex di pe uid ⟨some ⟨""⟩, pic, lu, ch, cr⟩ =
          ⟨ProcessResult.message ("A PDF resume is required to proceed."), 0, 0, none⟩) ∧
      (∀ (o : LLM) (http : String → Except String String) (getText : String → String)
        (pex : String → Bool) (di : String → Except String Unit)
        (t uid : String) (pic : Option UploadedFile) (lu : String)
        (ch : Option String) (cr fn : String), fn ≠ "" → pyStrip lu = "" →
        ((process o http getText pex di (Except.ok t) uid ⟨some ⟨fn⟩, pic, lu, ch, cr⟩).scrape_calls,
            (process o http getText pex di (Except.ok t) uid ⟨some ⟨fn⟩, pic, lu, ch, cr⟩).agent_profile,
            (process o http getText pex di (Except.ok t) uid ⟨some ⟨fn⟩, pic, lu, ch, cr⟩).agent_calls) =
          (0, some ("--- RESUME ---\n" ++ t ++ "\n\n--- LINKEDIN PROFILE ---\n" ++ ""), 1)) := by
  refine ⟨?_, ?_, ?_⟩
  · intro o http getText pex di pe uid pic lu ch cr
    rfl
  · intro o http getText pex di pe uid pic lu ch cr
    rfl
  · intro o http getText pex di t uid pic lu ch cr fn h1 h2
    simp [process, h1, h2]

/-- C6 witness: the LinkedIn-empty branch of the claim at a concrete
input. -/
theorem C6_resume_required_linkedin_optional_witness :
    ((process trivLLM (fun _ => Except.error ("net")) (fun s => s) (fun _ => true)
        (fun _ => Except.ok ()) (Except.ok ("R")) "u"
        ⟨some ⟨"resume.pdf"⟩, none, "", some ("resume_based"), ""⟩).scrape_calls,
      (process trivLLM (fun _ => Except.error ("net")) (fun s => s) (fun _ => true)
        (fun _ => Except.ok ()) (Except.ok ("R")) "u"
        ⟨some ⟨"resume.pdf"⟩, none, "", some ("resume_based"), ""⟩).agent_profile,
      (process trivLLM (fun _ => Except.error ("net")) (fun s => s) (fun _ => true)
        (fun _ => Except.ok ()) (Except.ok ("R")) "u"
        ⟨some ⟨"resume.pdf"⟩, none, "", some ("resume_based"), ""⟩).agent_calls) =
    (0, some ("--- RESUME ---\n" ++ "R" ++ "\n\n--- LINKEDIN PROFILE ---\n" ++ ""), 1) := by
  exact C6_resume_required_linkedin_optional.2.2 trivLLM (fun _ => Except.error ("net"))
    (fun s => s) (fun _ => true) (fun _ => Except.ok ())
    "R" "u" none ("") (some ("resume_based")) "" "resume.pdf" (by decide) rfl

/-- C7: every run of the pipeline produces the three artifacts — the final
state of `run_agent` carries a `CareerActionPlan` in `final_plan` and a
`TailoredResumeContent` in `tailored_resume` — and a `/process` call that
passes the input checks renders a result page carrying the plan together
with a generated resume PDF written under the upload folder. -/
theorem C7_pipeline_produces_outputs :
    (∀ (o : LLM) (p rc : String), ∃ st plan resume,
        run_agent o p rc = some st ∧ st.final_plan = some plan ∧
          st.tailored_resume = some resume) ∧
      (∀ (o : LLM) (http : String → Except String String) (getText : String → String)
        (pex : String → Bool) (di : String → Except String Unit)
        (t uid : String) (pic : Option UploadedFile) (lu : String)
        (ch : Option String) (cr fn : String), fn ≠ "" →
        ∃ plan doc,
          (process o http getText pex di (Except.ok t) uid ⟨some ⟨fn⟩, pic, lu, ch, cr⟩).result =
            ProcessResult.page plan (uid ++ "_generated_resume.pdf")
              (some (UPLOAD_FOLDER ++ "/" ++ (uid ++ "_generated_resume.pdf"), doc))) := by
  constructor
  · intro o p rc
    exact run_agent_total o p rc
  · intro o http getText pex di t uid pic lu ch cr fn h
    simp only [process, h]
    simp only [reduceIte]
    exact agent_stage_page o pex di _ _ _ _ _

/-- C7 witness: a `/process` call with a valid resume at concrete inputs. -/
theorem C7_pipeline_produces_outputs_witness :
    ∃ plan doc,
      (process trivLLM (fun _ => Except.ok ("page")) (fun s => s) (fun _ => true)
          (fun _ => Except.ok ()) (Except.ok ("R")) "u"
          ⟨some ⟨"resume.pdf"⟩, none, "", some ("Other"), "ML Engineer"⟩).result =
        ProcessResult.page plan ("u" ++ "_generated_resume.pdf")
          (some (UPLOAD_FOLDER ++ "/" ++ ("u" ++ "_generated_resume.pdf"), doc)) := by
  exact C7_pipeline_produces_outputs.2 trivLLM (fun _ => Except.ok ("page")) (fun s => s)
    (fun _ => true) (fun _ => Except.ok ())
    "R" "u" none ("") (some ("Other")) "ML Engineer" "resume.pdf" (by decide)
